import Mathlib

/-!
# GridHandler: tag table, mapping registry, value lookup, reader and writer

A shallow embedding of `OpenMS::Internal::GridHandler`
(`include/OpenMS/FORMAT/HANDLERS/GridHandler.h`).  The inline member functions
of the header are embedded from their bodies; the four member functions the
header only declares are modelled from the specification of the codec, in the
section on the reader and the writer.

Modelling decisions, all local to this file:

* `std::map<std::string, V>` is `StdMap V`: a list of entries whose keys are
  pairwise distinct.  Iteration order is not modelled, no embedded operation
  iterates over a map.
* `std::vector<String>` is `List String`.
* `UnsignedInt` (a typedef that is not in the header) and `int` are `Nat` and
  `Int`.  The only arithmetic in the header is the loop counter of `fillMap_`
  and `fillVector_`, which is bounded by the number of elements of a vector
  held in memory; vectors of `2^31` or more strings are left out of the model.
* `error` and `warning` are inherited from `XMLHandler`, whose body is not in
  the header; the field `diagnostics` is the record of their calls.  In
  `useMap_` both calls come after a step whose behaviour the language leaves
  undefined (a null `Locator` pointer dereferenced, a local read inside its
  own initialiser), so a lookup that takes one of those branches ends at that
  step and is given the outcome `Outcome.undefined`.
* A `const char*` is a `CharPtr`: the test `message != ""` of the source
  compares addresses, not characters.
-/

namespace OpenMS
namespace Internal

/-! ## `std::map<std::string, V>` -/

/-- Entry list after `m[k] = v`: the entry under `k` is replaced where it stands,
or a new entry is added when there is none. -/
def assignEntries {V : Type} (k : String) (v : V) : List (String × V) → List (String × V)
  | [] => [(k, v)]
  | e :: rest => if e.1 = k then (k, v) :: rest else e :: assignEntries k v rest

/-- Entry list lookup: the value of the first entry stored under `k`. -/
def findEntries {V : Type} (k : String) : List (String × V) → Option V
  | [] => none
  | e :: rest => if e.1 = k then some e.2 else findEntries k rest

/-- A `std::map<std::string, V>`: entries with pairwise distinct keys. -/
structure StdMap (V : Type) where
  entries : List (String × V)
  unique : (entries.map Prod.fst).Nodup

namespace StdMap

/-- The map a default-constructed `std::map` holds. -/
def empty {V : Type} : StdMap V := ⟨[], List.nodup_nil⟩

/-- The call `m.find(k)`: `none` stands for `m.end()`, `some v` for an iterator whose
`second` is `v`.  The map is not changed. -/
def find {V : Type} (m : StdMap V) (k : String) : Option V := findEntries k m.entries

/-- The assignment `m[k] = v`. -/
def assign {V : Type} (m : StdMap V) (k : String) (v : V) : StdMap V :=
  ⟨assignEntries k v m.entries, by
    have hkeys : ∀ (l : List (String × V)) (x : String),
        x ∈ (assignEntries k v l).map Prod.fst → x = k ∨ x ∈ l.map Prod.fst := by
      intro l
      induction l with
      | nil => intro x hx; simpa [assignEntries] using hx
      | cons e rest ih =>
        intro x hx
        by_cases hk : e.1 = k
        · simp only [assignEntries, hk, if_true, List.map_cons, List.mem_cons] at hx ⊢
          tauto
        · simp only [assignEntries, hk, if_false, List.map_cons, List.mem_cons] at hx ⊢
          rcases hx with hx | hx
          · exact Or.inr (Or.inl hx)
          · rcases ih x hx with h | h
            · exact Or.inl h
            · exact Or.inr (Or.inr h)
    have hnodup : ∀ l : List (String × V), (l.map Prod.fst).Nodup →
        ((assignEntries k v l).map Prod.fst).Nodup := by
      intro l
      induction l with
      | nil => intro _; simp [assignEntries]
      | cons e rest ih =>
        intro hl
        rw [List.map_cons, List.nodup_cons] at hl
        by_cases hk : e.1 = k
        · simp only [assignEntries, hk, if_true, List.map_cons, List.nodup_cons]
          exact ⟨hk ▸ hl.1, hl.2⟩
        · simp only [assignEntries, hk, if_false, List.map_cons, List.nodup_cons]
          refine ⟨?_, ih hl.2⟩
          intro hmem
          rcases hkeys rest e.1 hmem with h | h
          · exact hk h
          · exact hl.1 h
    exact hnodup m.entries m.unique⟩

/-- The call `m.size()`. -/
def size {V : Type} (m : StdMap V) : Nat := m.entries.length

end StdMap

/-! ## The handler -/

/-- The enumeration `MapType` of the source, with its one enumerator `TAGMAP`. -/
inductive MapType where
  | TAGMAP
  deriving DecidableEq, Repr

/-- The constant `MAP_NUM` (`static const int MAP_NUM = 1`). -/
def MAP_NUM : Int := 1

/-- The enumeration `Tags`, in declaration order. -/
inductive Tags where
  | CELLLIST | CELL | FIRSTPOSITION | SECONDPOSITION
  | FPOSITION | SPOSITION | MAPPINGLIST | MAPPING | PARAM
  deriving DecidableEq, Repr

/-- The integer value of an enumerator of `Tags`: its position in the declaration. -/
def Tags.toInt : Tags → Int
  | .CELLLIST => 0
  | .CELL => 1
  | .FIRSTPOSITION => 2
  | .SECONDPOSITION => 3
  | .FPOSITION => 4
  | .SPOSITION => 5
  | .MAPPINGLIST => 6
  | .MAPPING => 7
  | .PARAM => 8

/-- The constant `TAG_NUM` (`static const int TAG_NUM = 9`). -/
def TAG_NUM : Int := 9

/-- A `BaseMapping*`: the address of a heap object. -/
structure BaseMappingPtr where
  addr : Nat
  deriving DecidableEq, Repr

/-- One call of the inherited `error` or `warning`, with the text of the
exception it was handed. -/
inductive Diagnostic where
  | error (text : String)
  | warning (text : String)
  deriving DecidableEq, Repr

/-- A `const char*` argument.  The source tests `message != ""`, which compares
the pointer with the address of the literal, so the model keeps apart that
address, which is also what the default argument `message = ""` passes, and
the characters held at any other address, an empty string among them.  The
two occurrences of the literal `""` in `useMap_` are taken to be one object. -/
inductive CharPtr where
  | emptyLiteral
  | other (chars : String)
  deriving DecidableEq, Repr

/-- The two steps of `useMap_` whose behaviour the language leaves undefined:
the dereference `*loc` of the null pointer `loc` that is handed to the
constructor of `SAXParseException`, and the local `String message` that is
read inside its own initialiser. -/
inductive UndefinedStep where
  | nullLocator
  | selfInitialisedMessage
  deriving DecidableEq, Repr

/-- How a call of `useMap_` ends: with the returned `int`, or at a step of
undefined behaviour, after which the source says nothing of the call. -/
inductive Outcome where
  | returned (v : Int)
  | undefined (step : UndefinedStep)
  deriving DecidableEq, Repr

/-- The data members of `GridHandler` that the inline member functions of the
header read or write, with the record of diagnostics of the base class. -/
structure GridHandler where
  /-- the member `std::vector<String> tagsVector_` -/
  tagsVector_ : List String
  /-- the member `Map maps[MAP_NUM]`, indexed by `MapType` -/
  maps : MapType → StdMap Int
  /-- the member `std::map<String, BaseMapping*> mapping_instances` -/
  mapping_instances : StdMap BaseMappingPtr
  /-- calls of the inherited `error` and `warning` so far, oldest first -/
  diagnostics : List Diagnostic

/-- The handler before any table is built: no tag names, empty maps, empty
registry, nothing reported. -/
def GridHandler.fresh : GridHandler :=
  { tagsVector_ := []
    maps := fun _ => StdMap.empty
    mapping_instances := StdMap.empty
    diagnostics := [] }

/-- The loop of `fillVector_` from counter `i`: `vec.push_back(contents[i])`
while `i < nr`.  `fuel` is the number of iterations left, `nr - i`.  The loop
stops at the end of `contents`, reading past it is undefined in the source. -/
def fillVectorLoop (contents : List String) : Nat → Nat → List String → List String
  | 0, _, vec => vec
  | fuel + 1, i, vec =>
    match contents.get? i with
    | some s => fillVectorLoop contents fuel (i + 1) (vec ++ [s])
    | none => vec

/-- The member function `fillVector_(vec, contents, nr)`. -/
def fillVector_ (vec : List String) (contents : List String) (nr : Int) : List String :=
  fillVectorLoop contents nr.toNat 0 vec

/-- The array `tags` of `setConstants_`. -/
def tags : List String :=
  ["celllist", "cell", "first", "second", "fposition",
   "sposition", "mappinglist", "mapping", "param"]

/-- The member function `setConstants_()`. -/
def setConstants_ (h : GridHandler) : GridHandler :=
  { h with tagsVector_ := fillVector_ h.tagsVector_ tags TAG_NUM }

/-- The loop of `fillMap_` from counter `i` over the elements `array[i], array[i+1], ...`:
`dict[array[i]] = i`. -/
def fillMapLoop : Nat → List String → StdMap Int → StdMap Int
  | _, [], dict => dict
  | i, s :: rest, dict => fillMapLoop (i + 1) rest (dict.assign s (i : Int))

/-- The member function `fillMap_(dict, array)`. -/
def fillMap_ (dict : StdMap Int) (array : List String) : StdMap Int :=
  fillMapLoop 0 array dict

/-- The member function `fillMaps_()`. -/
def fillMaps_ (h : GridHandler) : GridHandler :=
  { h with maps := fun t =>
      match t with
      | .TAGMAP => fillMap_ (h.maps .TAGMAP) h.tagsVector_ }

/-- The member function `registerMappings_()`; `p` is the pointer returned by `new LinearMapping()`. -/
def registerMappings_ (h : GridHandler) (p : BaseMappingPtr) : GridHandler :=
  { h with mapping_instances := h.mapping_instances.assign "LinearMapping" p }

/-- The member function `useMap_(type, value, fatal, message)`; the defaults of
the source are `fatal = true` and `message = ""`.

When `find` gives `end()` the source has three ways on:

* with `fatal` it sets `loc = 0`, calls `setDocumentLocator(loc)`, which takes
  the pointer by value and leaves `loc` null, builds the text
  `Error in enumerated value "value"` and constructs the exception from
  `*loc`: the null pointer is dereferenced before `error` is called;
* without `fatal` and with `message != ""` it declares a local
  `String message` whose initialiser reads that local, not the parameter it
  hides: the object is read before it is constructed, and before `*loc` and
  `warning` are reached;
* otherwise control falls through to `return 0`.

The handler of the result is the handler as the call found it: no branch
writes a member before the step at which it ends. -/
def useMap_ (h : GridHandler) (type : MapType) (value : String) (fatal : Bool)
    (message : CharPtr) : Outcome × GridHandler :=
  match (h.maps type).find value with
  | none =>
    if fatal then
      (Outcome.undefined UndefinedStep.nullLocator, h)
    else if message ≠ CharPtr.emptyLiteral then
      (Outcome.undefined UndefinedStep.selfInitialisedMessage, h)
    else
      (Outcome.returned 0, h)
  | some second => (Outcome.returned second, h)

/-- The handler whose tables were built from the empty state:
`setConstants_` followed by `fillMaps_`. -/
def GridHandler.built : GridHandler :=
  fillMaps_ (setConstants_ GridHandler.fresh)

/-! ## The reader and the writer

`startElement`, `characters`, `endElement` and `writeTo` are declared in the
header and defined in a translation unit that is not at hand.  They are
modelled from the specification of the codec: its data model (section 3), its
parse-state machine (4.3), its writer (4.4), its document vocabulary (6) and
its error kinds (7).  The scalar type of a coordinate, its decimal text form,
the `Param` type and its serialized form belong to collaborators and are
parameters. -/

/-- Modelled from the spec: the external collaborators of section 6, whose
bodies are not part of the codec: the default scalar of a fresh position, the
decimal text form of a coordinate scalar with its parser (`none` is a
`NumberFormatError`), and the configuration codec `encode` / `decode` (`none`
is a `MalformedConfiguration`). -/
structure Collaborators (Scalar Param : Type) where
  origin : Scalar
  showScalar : Scalar → String
  readScalar : String → Option Scalar
  encode : Param → String
  decode : String → Option Param

/-- Modelled from the spec: a Mapping of section 3, identified by its type name
and carrying an attached configuration; the class `BaseMapping` is not at hand. -/
structure Mapping (Param : Type) where
  typeName : String
  param : Param
  deriving DecidableEq, Repr

/-- Modelled from the spec: a corner position, a coordinate of dimension 2 with
the components `x` and `y`; the class `DPosition` is not at hand. -/
structure Position (Scalar : Type) where
  x : Scalar
  y : Scalar
  deriving DecidableEq, Repr

/-- Modelled from the spec: the fixed dimensionality of the vocabulary, 2. -/
def DIMENSION : Nat := 2

/-- Modelled from the spec: a GridCell of section 3: the corners `first` and
`second` and the mapping slots, one per dimension, a slot being unset or
holding one Mapping; the class `GridCell` is not at hand. -/
structure GridCell (Scalar Param : Type) where
  first : Position Scalar
  second : Position Scalar
  mappings : List (Option (Mapping Param))
  deriving DecidableEq, Repr

/-- Modelled from the spec: a Grid of section 3, the ordered sequence of its
cells; the class `Grid` is not at hand. -/
abbrev Grid (Scalar Param : Type) := List (GridCell Scalar Param)

/-- Modelled from the spec: the MappingTypeRegistry of 4.2, a table from type
names to zero-argument constructors; its operations are not in the header
apart from the one registration of `registerMappings_`. -/
abbrev MappingTypeRegistry (Param : Type) := StdMap (Unit → Mapping Param)

/-- Modelled from the spec: `register(typeName, factory)` of 4.2; the last
registration under a name wins. -/
def MappingTypeRegistry.register {Param : Type} (r : MappingTypeRegistry Param)
    (typeName : String) (factory : Unit → Mapping Param) : MappingTypeRegistry Param :=
  r.assign typeName factory

/-- Modelled from the spec: the error kinds of section 7, each with the
offending name or text; the exception classes are not at hand. -/
inductive ParseError where
  | UnrecognizedTag (name : String)
  | IllegalNesting (name : String)
  | UnknownMappingType (typeName : String)
  | InvalidDimension (value : String)
  | NumberFormatError (text : String)
  | MalformedConfiguration (payload : String)
  deriving DecidableEq, Repr

/-- Modelled from the spec: `create(typeName)` of 4.2: the stored constructor is
invoked, a missing entry is `UnknownMappingType`. -/
def MappingTypeRegistry.create {Param : Type} (r : MappingTypeRegistry Param)
    (typeName : String) : Except ParseError (Mapping Param) :=
  match r.find typeName with
  | some factory => Except.ok (factory ())
  | none => Except.error (ParseError.UnknownMappingType typeName)

/-- Modelled from the spec: the events of the event source of section 6,
named after the three handler functions the header declares. -/
inductive Event where
  | startElement (qname : String) (attributes : List (String × String))
  | characters (chars : String)
  | endElement (qname : String)
  deriving DecidableEq, Repr

/-- The enumerator with a given integer value. -/
def Tags.ofInt : Int → Option Tags
  | 0 => some .CELLLIST
  | 1 => some .CELL
  | 2 => some .FIRSTPOSITION
  | 3 => some .SECONDPOSITION
  | 4 => some .FPOSITION
  | 5 => some .SPOSITION
  | 6 => some .MAPPINGLIST
  | 7 => some .MAPPING
  | 8 => some .PARAM
  | _ => none

/-- Modelled from the spec: the TagTable contract of 4.1 (the identifier of a
tag name, or "unrecognized"), read off the tag table that `setConstants_` and
`fillMaps_` build. -/
def tagOf (qname : String) : Option Tags :=
  match (GridHandler.built.maps MapType.TAGMAP).find qname with
  | some v => Tags.ofInt v
  | none => none

/-- Modelled from the spec: the grammar of section 6 as a child relation;
`none` is the scope Root. -/
def legalChild : Option Tags → Tags → Bool
  | none, .CELLLIST => true
  | some .CELLLIST, .CELL => true
  | some .CELL, .FIRSTPOSITION => true
  | some .CELL, .SECONDPOSITION => true
  | some .CELL, .MAPPINGLIST => true
  | some .FIRSTPOSITION, .FPOSITION => true
  | some .FIRSTPOSITION, .SPOSITION => true
  | some .SECONDPOSITION, .FPOSITION => true
  | some .SECONDPOSITION, .SPOSITION => true
  | some .MAPPINGLIST, .MAPPING => true
  | some .MAPPING, .PARAM => true
  | _, _ => false

/-- Modelled from the spec: the ParseState of section 2 and 4.3: the open
scopes, innermost first (the empty list is Root), the output grid, the cell,
mapping and dimension index under construction, the text accumulated for the
two scalars of a corner and for the configuration payload, the depth inside a
skipped element and the warnings recorded so far.  The members `in_tag_`,
`cell_`, `mapping_`, `param_` of the header give the fields their names. -/
structure ParseState (Scalar Param : Type) where
  in_tag_ : List Tags
  grid_ : Option (Grid Scalar Param)
  cell_ : Option (GridCell Scalar Param)
  mapping_ : Option (Mapping Param)
  dim : Nat
  ftext : String
  stext : String
  param_ : String
  skipping : Nat
  warnings : List ParseError

/-- Modelled from the spec: the state before the first event: scope Root, no
grid, nothing under construction. -/
def ParseState.initial {Scalar Param : Type} : ParseState Scalar Param :=
  { in_tag_ := [], grid_ := none, cell_ := none, mapping_ := none, dim := 0,
    ftext := "", stext := "", param_ := "", skipping := 0, warnings := [] }

/-- Modelled from the spec: what the reader is given besides the events: the
collaborators, the registry populated before the parse, and the mode chosen
for `UnrecognizedTag` and `IllegalNesting`. -/
structure Reader (Scalar Param : Type) where
  codec : Collaborators Scalar Param
  registry : MappingTypeRegistry Param
  fatal : Bool

/-- Modelled from the spec: the policy of section 7 for an offending opening
tag: fatal mode aborts with the error, non-fatal mode records it as a warning
and skips the content of the element. -/
def rejectOpen {Scalar Param : Type} (rd : Reader Scalar Param) (s : ParseState Scalar Param)
    (err : ParseError) : Except ParseError (ParseState Scalar Param) :=
  if rd.fatal then Except.error err
  else Except.ok { s with skipping := 1, warnings := s.warnings ++ [err] }

/-- Modelled from the spec: the same policy for an offending closing tag, which
has no content to skip. -/
def rejectClose {Scalar Param : Type} (rd : Reader Scalar Param) (s : ParseState Scalar Param)
    (err : ParseError) : Except ParseError (ParseState Scalar Param) :=
  if rd.fatal then Except.error err
  else Except.ok { s with warnings := s.warnings ++ [err] }

/-- Modelled from the spec: the decimal text of a dimension index read as a
number; `none` for an empty text and for a text with a character that is not
a digit. -/
def readIndex (text : String) : Option Nat :=
  if text.data = [] then none
  else
    text.data.foldl
      (fun acc ch =>
        match acc with
        | some n => if ch.isDigit then some (n * 10 + (ch.toNat - 48)) else none
        | none => none)
      (some 0)

/-- The value of the attribute `name` of an element, if the element carries it
(`Attributes::getValue` of the event source). -/
def getValue (attributes : List (String × String)) (name : String) : Option String :=
  findEntries name attributes

/-- Modelled from the spec: the transitions of 4.3 on entering a scope.  A
`mapping` resolves its `type` through the registry first and then checks its
`dim` against the dimensionality; an absent `type` is looked up as the empty
name and an absent or non-numeric `dim` is an `InvalidDimension`. -/
def startElement {Scalar Param : Type} (rd : Reader Scalar Param)
    (s : ParseState Scalar Param) (qname : String) (attributes : List (String × String)) :
    Except ParseError (ParseState Scalar Param) :=
  if s.skipping ≠ 0 then Except.ok { s with skipping := s.skipping + 1 }
  else
    match tagOf qname with
    | none => rejectOpen rd s (ParseError.UnrecognizedTag qname)
    | some t =>
      if legalChild s.in_tag_.head? t = false then
        rejectOpen rd s (ParseError.IllegalNesting qname)
      else
        match t with
        | .CELLLIST =>
          Except.ok { s with in_tag_ := t :: s.in_tag_, grid_ := some (s.grid_.getD []) }
        | .CELL =>
          Except.ok { s with
            in_tag_ := t :: s.in_tag_
            cell_ := some
              { first := ⟨rd.codec.origin, rd.codec.origin⟩
                second := ⟨rd.codec.origin, rd.codec.origin⟩
                mappings := List.replicate DIMENSION none }
            dim := 0, ftext := "", stext := "", param_ := "" }
        | .FIRSTPOSITION | .SECONDPOSITION =>
          Except.ok { s with in_tag_ := t :: s.in_tag_, ftext := "", stext := "" }
        | .FPOSITION | .SPOSITION | .MAPPINGLIST =>
          Except.ok { s with in_tag_ := t :: s.in_tag_ }
        | .MAPPING =>
          let typeName := (getValue attributes "type").getD ""
          let dimText := (getValue attributes "dim").getD ""
          match rd.registry.create typeName with
          | Except.error err => Except.error err
          | Except.ok m =>
            match readIndex dimText with
            | none => Except.error (ParseError.InvalidDimension dimText)
            | some d =>
              if d < DIMENSION then
                Except.ok { s with in_tag_ := t :: s.in_tag_, mapping_ := some m, dim := d }
              else Except.error (ParseError.InvalidDimension dimText)
        | .PARAM =>
          Except.ok { s with in_tag_ := t :: s.in_tag_, param_ := "" }

/-- Modelled from the spec: text is accumulated inside an open scalar of a
corner and inside an open configuration scope, and ignored anywhere else. -/
def characters {Scalar Param : Type} (s : ParseState Scalar Param) (chars : String) :
    ParseState Scalar Param :=
  if s.skipping ≠ 0 then s
  else
    match s.in_tag_.head? with
    | some .FPOSITION => { s with ftext := s.ftext ++ chars }
    | some .SPOSITION => { s with stext := s.stext ++ chars }
    | some .PARAM => { s with param_ := s.param_ ++ chars }
    | _ => s

/-- Modelled from the spec: the two accumulated scalar texts of a corner parsed
into its numeric components; malformed text is a `NumberFormatError`. -/
def parseCorner {Scalar Param : Type} (codec : Collaborators Scalar Param)
    (ftext stext : String) : Except ParseError (Position Scalar) :=
  match codec.readScalar ftext with
  | none => Except.error (ParseError.NumberFormatError ftext)
  | some x =>
    match codec.readScalar stext with
    | none => Except.error (ParseError.NumberFormatError stext)
    | some y => Except.ok ⟨x, y⟩

/-- Modelled from the spec: the transitions of 4.3 on leaving a scope: a corner
is parsed and stored into the cell, a configuration is decoded and attached
to the open mapping, a mapping is stored into the slot of its dimension index
(a later one overwrites an earlier one) and a cell is appended to the grid;
what is handed over is cleared in the state. -/
def endElement {Scalar Param : Type} (rd : Reader Scalar Param)
    (s : ParseState Scalar Param) (qname : String) :
    Except ParseError (ParseState Scalar Param) :=
  if s.skipping ≠ 0 then Except.ok { s with skipping := s.skipping - 1 }
  else
    match tagOf qname with
    | none => rejectClose rd s (ParseError.UnrecognizedTag qname)
    | some t =>
      if s.in_tag_.head? ≠ some t then
        rejectClose rd s (ParseError.IllegalNesting qname)
      else
        match t with
        | .FIRSTPOSITION =>
          match parseCorner rd.codec s.ftext s.stext with
          | Except.error err => Except.error err
          | Except.ok p =>
            Except.ok { s with
              in_tag_ := s.in_tag_.tail
              cell_ := s.cell_.map (fun c => { c with first := p }) }
        | .SECONDPOSITION =>
          match parseCorner rd.codec s.ftext s.stext with
          | Except.error err => Except.error err
          | Except.ok p =>
            Except.ok { s with
              in_tag_ := s.in_tag_.tail
              cell_ := s.cell_.map (fun c => { c with second := p }) }
        | .PARAM =>
          match rd.codec.decode s.param_ with
          | none => Except.error (ParseError.MalformedConfiguration s.param_)
          | some p =>
            Except.ok { s with
              in_tag_ := s.in_tag_.tail
              mapping_ := s.mapping_.map (fun m => { m with param := p }) }
        | .MAPPING =>
          Except.ok { s with
            in_tag_ := s.in_tag_.tail
            cell_ := s.cell_.map (fun c => { c with mappings := c.mappings.set s.dim s.mapping_ })
            mapping_ := none }
        | .CELL =>
          Except.ok { s with
            in_tag_ := s.in_tag_.tail
            grid_ := match s.cell_ with
              | some c => some (s.grid_.getD [] ++ [c])
              | none => s.grid_
            cell_ := none }
        | .CELLLIST | .FPOSITION | .SPOSITION | .MAPPINGLIST =>
          Except.ok { s with in_tag_ := s.in_tag_.tail }

/-- Modelled from the spec: one event handed to the reader. -/
def step {Scalar Param : Type} (rd : Reader Scalar Param) (s : ParseState Scalar Param) :
    Event → Except ParseError (ParseState Scalar Param)
  | .startElement qname attributes => startElement rd s qname attributes
  | .characters chars => Except.ok (characters s chars)
  | .endElement qname => endElement rd s qname

/-- Modelled from the spec: the events of a document handed to the reader in
order; the first fatal error ends the parse. -/
def feed {Scalar Param : Type} (rd : Reader Scalar Param) :
    ParseState Scalar Param → List Event → Except ParseError (ParseState Scalar Param)
  | s, [] => Except.ok s
  | s, e :: rest =>
    match step rd s e with
    | Except.ok s1 => feed rd s1 rest
    | Except.error err => Except.error err

/-- Modelled from the spec: the GridReader of section 2: the grid populated by
a whole document, or the fatal error that ended the parse. -/
def read {Scalar Param : Type} (rd : Reader Scalar Param) (events : List Event) :
    Except ParseError (Grid Scalar Param) :=
  match feed rd ParseState.initial events with
  | Except.ok s => Except.ok (s.grid_.getD [])
  | Except.error err => Except.error err

/-- Modelled from the spec: a corner as written by 4.4 in the shape of the
grammar: the element `tag` with the scalars `fposition` and `sposition`. -/
def writeCorner {Scalar Param : Type} (codec : Collaborators Scalar Param) (tag : String)
    (p : Position Scalar) : List Event :=
  [ Event.startElement tag [],
    Event.startElement "fposition" [], Event.characters (codec.showScalar p.x),
    Event.endElement "fposition",
    Event.startElement "sposition" [], Event.characters (codec.showScalar p.y),
    Event.endElement "sposition",
    Event.endElement tag ]

/-- Modelled from the spec: the `mapping` element of 4.4 for the slot of
dimension `d`: its type name and dimension index, then its configuration as
encoded by the collaborator. -/
def writeMapping {Scalar Param : Type} (codec : Collaborators Scalar Param) (d : Nat)
    (m : Mapping Param) : List Event :=
  [ Event.startElement "mapping" [("type", m.typeName), ("dim", toString d)],
    Event.startElement "param" [], Event.characters (codec.encode m.param),
    Event.endElement "param",
    Event.endElement "mapping" ]

/-- Modelled from the spec: the slots from dimension `d` on, in order; a slot
that holds no Mapping writes nothing. -/
def writeSlots {Scalar Param : Type} (codec : Collaborators Scalar Param) :
    Nat → List (Option (Mapping Param)) → List Event
  | _, [] => []
  | d, none :: rest => writeSlots codec (d + 1) rest
  | d, some m :: rest => writeMapping codec d m ++ writeSlots codec (d + 1) rest

/-- Modelled from the spec: one cell as written by 4.4. -/
def writeCell {Scalar Param : Type} (codec : Collaborators Scalar Param)
    (c : GridCell Scalar Param) : List Event :=
  [Event.startElement "cell" []]
    ++ writeCorner codec "first" c.first
    ++ writeCorner codec "second" c.second
    ++ [Event.startElement "mappinglist" []]
    ++ writeSlots codec 0 c.mappings
    ++ [Event.endElement "mappinglist", Event.endElement "cell"]

/-- Modelled from the spec: the cells of a grid as written by 4.4, in order. -/
def writeCells {Scalar Param : Type} (codec : Collaborators Scalar Param) :
    Grid Scalar Param → List Event
  | [] => []
  | c :: rest => writeCell codec c ++ writeCells codec rest

/-- Modelled from the spec: the GridWriter of 4.4, `writeTo` of the header: the
tag and text sequence of a grid, the `celllist` element around its cells. -/
def writeTo {Scalar Param : Type} (codec : Collaborators Scalar Param)
    (g : Grid Scalar Param) : List Event :=
  [Event.startElement "celllist" []] ++ writeCells codec g ++ [Event.endElement "celllist"]

/-- Modelled from the spec: what the round trip asks of a mapping: its type
name is registered and the registered constructor builds a mapping of that
type, and the configuration codec gives its configuration back. -/
def Mapping.Transportable {Scalar Param : Type} (rd : Reader Scalar Param)
    (m : Mapping Param) : Prop :=
  (∃ factory, rd.registry.find m.typeName = some factory ∧ (factory ()).typeName = m.typeName)
  ∧ rd.codec.decode (rd.codec.encode m.param) = some m.param

/-- Modelled from the spec: what the round trip asks of a corner: the decimal
text of each scalar parses back to the scalar. -/
def Position.Transportable {Scalar Param : Type} (rd : Reader Scalar Param)
    (p : Position Scalar) : Prop :=
  rd.codec.readScalar (rd.codec.showScalar p.x) = some p.x
  ∧ rd.codec.readScalar (rd.codec.showScalar p.y) = some p.y

/-- Modelled from the spec: a cell that honours the invariant of section 3 (as
many mapping slots as dimensions) and whose corners and mappings the
collaborators transport. -/
def GridCell.Transportable {Scalar Param : Type} (rd : Reader Scalar Param)
    (c : GridCell Scalar Param) : Prop :=
  c.mappings.length = DIMENSION
  ∧ Position.Transportable rd c.first
  ∧ Position.Transportable rd c.second
  ∧ ∀ m, some m ∈ c.mappings → Mapping.Transportable rd m

/-- Modelled from the spec: a sample collaborator set: natural numbers as
scalars, written in decimal and read by `readIndex`, and text as
configuration, encoded as itself. -/
def sampleCodec : Collaborators Nat String :=
  { origin := 0
    showScalar := fun n => toString n
    readScalar := readIndex
    encode := fun p => p
    decode := fun payload => some payload }

/-- Modelled from the spec: a reader whose registry holds the linear mapping,
the one registration of `registerMappings_`. -/
def sampleReader : Reader Nat String :=
  { codec := sampleCodec
    registry :=
      MappingTypeRegistry.register StdMap.empty "LinearMapping"
        (fun _ => ⟨"LinearMapping", ""⟩)
    fatal := true }

/-- A grid of two cells: the first cell has a mapping in the slot of dimension 0
only, the second in both slots. -/
def sampleGrid : Grid Nat String :=
  [ ⟨⟨1, 2⟩, ⟨30, 40⟩, [some ⟨"LinearMapping", "slope=2"⟩, none]⟩,
    ⟨⟨5, 6⟩, ⟨7, 8⟩, [some ⟨"LinearMapping", "a"⟩, some ⟨"LinearMapping", "b"⟩]⟩ ]

/-- A grid whose one mapping is of the type "Other", which the sample reader
has not registered. -/
def unregisteredGrid : Grid Nat String :=
  [ ⟨⟨1, 2⟩, ⟨3, 4⟩, [some ⟨"Other", "a"⟩, none]⟩ ]

/-- A grid whose one cell has three mapping slots, one more than there are
dimensions, the third of them set. -/
def threeSlotGrid : Grid Nat String :=
  [ ⟨⟨1, 2⟩, ⟨3, 4⟩, [none, none, some ⟨"LinearMapping", "a"⟩]⟩ ]

/-- A collaborator set whose text form of a scalar keeps the first three digits
only. -/
def truncatingCodec : Collaborators Nat String :=
  { sampleCodec with showScalar := fun n => String.mk ((toString n).data.take 3) }

/-- The sample reader with the truncating text form. -/
def truncatingReader : Reader Nat String :=
  { sampleReader with codec := truncatingCodec }

/-- A grid with a coordinate of four digits. -/
def fourDigitGrid : Grid Nat String :=
  [ ⟨⟨1234, 2⟩, ⟨3, 4⟩, [none, none]⟩ ]

/-! ## Facts about `std::map` -/

theorem findEntries_assignEntries_same {V : Type} (k : String) (v : V) (l : List (String × V)) :
    findEntries k (assignEntries k v l) = some v := by
  induction l with
  | nil => simp [assignEntries, findEntries]
  | cons e rest ih =>
    by_cases hk : e.1 = k
    · simp [assignEntries, findEntries, hk]
    · simp [assignEntries, findEntries, hk, ih]

theorem findEntries_assignEntries_other {V : Type} (k x : String) (v : V)
    (l : List (String × V)) (hx : x ≠ k) :
    findEntries x (assignEntries k v l) = findEntries x l := by
  induction l with
  | nil =>
    have hk : ¬ k = x := fun h => hx h.symm
    simp [assignEntries, findEntries, hk]
  | cons e rest ih =>
    by_cases hk : e.1 = k
    · have hex : ¬ e.1 = x := fun h => hx (h.symm.trans hk)
      have hkx : ¬ k = x := fun h => hx h.symm
      simp [assignEntries, findEntries, hk, hex, hkx]
    · by_cases hex : e.1 = x
      · have hxk : ¬ x = k := hx
        simp only [assignEntries, hk, hxk, if_false, findEntries, hex, if_true]
      · simp only [assignEntries, hk, if_false, findEntries, hex, ih]

theorem length_assignEntries_present {V : Type} (k : String) (v w : V) (l : List (String × V))
    (h : findEntries k l = some w) : (assignEntries k v l).length = l.length := by
  induction l with
  | nil => simp [findEntries] at h
  | cons e rest ih =>
    by_cases hk : e.1 = k
    · simp [assignEntries, hk]
    · simp only [findEntries, hk, if_false] at h
      simp [assignEntries, hk, ih h]

theorem length_assignEntries_absent {V : Type} (k : String) (v : V) (l : List (String × V))
    (h : findEntries k l = none) : (assignEntries k v l).length = l.length + 1 := by
  induction l with
  | nil => simp [assignEntries]
  | cons e rest ih =>
    by_cases hk : e.1 = k
    · simp [findEntries, hk] at h
    · simp only [findEntries, hk, if_false] at h
      simp [assignEntries, hk, ih h]

theorem mem_of_findEntries {V : Type} (k : String) (v : V) (l : List (String × V))
    (h : findEntries k l = some v) : (k, v) ∈ l := by
  induction l with
  | nil => simp [findEntries] at h
  | cons e rest ih =>
    by_cases hk : e.1 = k
    · simp only [findEntries, hk, if_true, Option.some.injEq] at h
      have : e = (k, v) := Prod.ext hk h
      simp [this]
    · simp only [findEntries, hk, if_false] at h
      exact List.mem_cons_of_mem _ (ih h)

namespace StdMap

theorem find_assign_same {V : Type} (m : StdMap V) (k : String) (v : V) :
    (m.assign k v).find k = some v :=
  findEntries_assignEntries_same k v m.entries

theorem find_assign_other {V : Type} (m : StdMap V) (k x : String) (v : V) (hx : x ≠ k) :
    (m.assign k v).find x = m.find x :=
  findEntries_assignEntries_other k x v m.entries hx

theorem size_assign_present {V : Type} (m : StdMap V) (k : String) (v w : V)
    (h : m.find k = some w) : (m.assign k v).size = m.size :=
  length_assignEntries_present k v w m.entries h

theorem size_assign_absent {V : Type} (m : StdMap V) (k : String) (v : V)
    (h : m.find k = none) : (m.assign k v).size = m.size + 1 :=
  length_assignEntries_absent k v m.entries h

theorem find_empty {V : Type} (k : String) : (StdMap.empty : StdMap V).find k = none := rfl

end StdMap

/-! ## Facts about `useMap_` -/

theorem useMap_found (h : GridHandler) (type : MapType) (value : String) (fatal : Bool)
    (message : CharPtr) (v : Int) (hv : (h.maps type).find value = some v) :
    useMap_ h type value fatal message = (Outcome.returned v, h) := by
  simp [useMap_, hv]

theorem useMap_fatal (h : GridHandler) (type : MapType) (value : String)
    (message : CharPtr) (hv : (h.maps type).find value = none) :
    useMap_ h type value true message = (Outcome.undefined UndefinedStep.nullLocator, h) := by
  simp [useMap_, hv]

theorem useMap_other_message (h : GridHandler) (type : MapType) (value : String)
    (message : CharPtr) (hv : (h.maps type).find value = none)
    (hm : message ≠ CharPtr.emptyLiteral) :
    useMap_ h type value false message
      = (Outcome.undefined UndefinedStep.selfInitialisedMessage, h) := by
  simp [useMap_, hv, hm]

theorem useMap_silent (h : GridHandler) (type : MapType) (value : String)
    (hv : (h.maps type).find value = none) :
    useMap_ h type value false CharPtr.emptyLiteral = (Outcome.returned 0, h) := by
  simp [useMap_, hv]

/-- The tag table of the built handler, entry by entry. -/
theorem built_entries :
    (GridHandler.built.maps MapType.TAGMAP).entries =
      [("celllist", 0), ("cell", 1), ("first", 2), ("second", 3), ("fposition", 4),
       ("sposition", 5), ("mappinglist", 6), ("mapping", 7), ("param", 8)] := by
  decide

/-! ## The tag table -/

/-- C1: on the handler built by `setConstants_` then `fillMaps_` from the empty
state, `useMap_(TAGMAP, name)` returns for each of the nine tag names the
ordinal of its enumerator (celllist 0, cell 1, first 2, second 3, fposition 4,
sposition 5, mappinglist 6, mapping 7, param 8) and leaves the handler as it
was, so nothing is reported; the nine ordinals are pairwise distinct. -/
theorem useMap_recognised_tags (fatal : Bool) (message : CharPtr) :
    useMap_ GridHandler.built MapType.TAGMAP "celllist" fatal message
        = (Outcome.returned Tags.CELLLIST.toInt, GridHandler.built)
    ∧ useMap_ GridHandler.built MapType.TAGMAP "cell" fatal message
        = (Outcome.returned Tags.CELL.toInt, GridHandler.built)
    ∧ useMap_ GridHandler.built MapType.TAGMAP "first" fatal message
        = (Outcome.returned Tags.FIRSTPOSITION.toInt, GridHandler.built)
    ∧ useMap_ GridHandler.built MapType.TAGMAP "second" fatal message
        = (Outcome.returned Tags.SECONDPOSITION.toInt, GridHandler.built)
    ∧ useMap_ GridHandler.built MapType.TAGMAP "fposition" fatal message
        = (Outcome.returned Tags.FPOSITION.toInt, GridHandler.built)
    ∧ useMap_ GridHandler.built MapType.TAGMAP "sposition" fatal message
        = (Outcome.returned Tags.SPOSITION.toInt, GridHandler.built)
    ∧ useMap_ GridHandler.built MapType.TAGMAP "mappinglist" fatal message
        = (Outcome.returned Tags.MAPPINGLIST.toInt, GridHandler.built)
    ∧ useMap_ GridHandler.built MapType.TAGMAP "mapping" fatal message
        = (Outcome.returned Tags.MAPPING.toInt, GridHandler.built)
    ∧ useMap_ GridHandler.built MapType.TAGMAP "param" fatal message
        = (Outcome.returned Tags.PARAM.toInt, GridHandler.built)
    ∧ [Tags.CELLLIST, Tags.CELL, Tags.FIRSTPOSITION, Tags.SECONDPOSITION, Tags.FPOSITION,
        Tags.SPOSITION, Tags.MAPPINGLIST, Tags.MAPPING, Tags.PARAM].map Tags.toInt
        = [0, 1, 2, 3, 4, 5, 6, 7, 8]
    ∧ ([Tags.CELLLIST, Tags.CELL, Tags.FIRSTPOSITION, Tags.SECONDPOSITION, Tags.FPOSITION,
        Tags.SPOSITION, Tags.MAPPINGLIST, Tags.MAPPING, Tags.PARAM].map Tags.toInt).Nodup
    ∧ GridHandler.built.diagnostics = [] := by
  refine ⟨?_, ?_, ?_, ?_, ?_, ?_, ?_, ?_, ?_, by decide, by decide, rfl⟩ <;>
    exact useMap_found _ _ _ _ _ _ (by decide)

/-- C2, as stated, fails: "unknown" is not a key of the built tag table, and
the non-fatal lookup of it with the default message returns 0, the
identifier of `celllist`, which is also what the lookup of "celllist" returns. -/
theorem useMap_unrecognised_returns_celllist :
    (GridHandler.built.maps MapType.TAGMAP).find "unknown" = none
    ∧ (useMap_ GridHandler.built MapType.TAGMAP "unknown" false CharPtr.emptyLiteral).1
        = Outcome.returned Tags.CELLLIST.toInt
    ∧ (useMap_ GridHandler.built MapType.TAGMAP "unknown" false CharPtr.emptyLiteral).1
        = (useMap_ GridHandler.built MapType.TAGMAP "celllist" false CharPtr.emptyLiteral).1 := by
  decide

/-- C2, amended: over the built tag table a recognised name yields its
identifier (the ordinal of the enumerator at whose position the name stands
in the array `tags`) and leaves the handler as it was, in every mode; for a
name that is not in the table the non-fatal lookup with the default message
returns 0, the identifier of `celllist`, and leaves the handler as it was.
Nothing is said of the other lookups of a name that is not in the table. -/
theorem useMap_identifier_or_zero (name : String) (fatal : Bool) (message : CharPtr) :
    (∃ t : Tags, tags.get? t.toInt.toNat = some name
        ∧ useMap_ GridHandler.built MapType.TAGMAP name fatal message
          = (Outcome.returned t.toInt, GridHandler.built))
    ∨ ((GridHandler.built.maps MapType.TAGMAP).find name = none
        ∧ useMap_ GridHandler.built MapType.TAGMAP name false CharPtr.emptyLiteral
          = (Outcome.returned Tags.CELLLIST.toInt, GridHandler.built)) := by
  cases hf : (GridHandler.built.maps MapType.TAGMAP).find name with
  | some v =>
    left
    have hmem := mem_of_findEntries name v _ hf
    rw [built_entries] at hmem
    rw [useMap_found _ _ _ _ _ v hf]
    simp only [List.mem_cons, Prod.mk.injEq, List.mem_singleton, List.not_mem_nil,
      or_false] at hmem
    rcases hmem with h | h | h | h | h | h | h | h | h
    · exact ⟨Tags.CELLLIST, by rw [h.1]; rfl, by rw [h.2]; rfl⟩
    · exact ⟨Tags.CELL, by rw [h.1]; rfl, by rw [h.2]; rfl⟩
    · exact ⟨Tags.FIRSTPOSITION, by rw [h.1]; rfl, by rw [h.2]; rfl⟩
    · exact ⟨Tags.SECONDPOSITION, by rw [h.1]; rfl, by rw [h.2]; rfl⟩
    · exact ⟨Tags.FPOSITION, by rw [h.1]; rfl, by rw [h.2]; rfl⟩
    · exact ⟨Tags.SPOSITION, by rw [h.1]; rfl, by rw [h.2]; rfl⟩
    · exact ⟨Tags.MAPPINGLIST, by rw [h.1]; rfl, by rw [h.2]; rfl⟩
    · exact ⟨Tags.MAPPING, by rw [h.1]; rfl, by rw [h.2]; rfl⟩
    · exact ⟨Tags.PARAM, by rw [h.1]; rfl, by rw [h.2]; rfl⟩
  | none =>
    right
    exact ⟨rfl, useMap_silent _ _ _ hf⟩

/-! ## Diagnostics of a failed lookup -/

/-- C3, as stated, fails: the non-fatal lookup of the unknown name "unknown"
with the default message returns and records no diagnostic at all. -/
theorem useMap_silent_on_empty_message :
    (GridHandler.built.maps MapType.TAGMAP).find "unknown" = none
    ∧ GridHandler.built.diagnostics = []
    ∧ (useMap_ GridHandler.built MapType.TAGMAP "unknown" false CharPtr.emptyLiteral).1
        = Outcome.returned 0
    ∧ (useMap_ GridHandler.built MapType.TAGMAP "unknown" false CharPtr.emptyLiteral).2.diagnostics
        = [] := by
  decide

/-- C3, amended: `useMap_` has a silent mode: for every name that is not in the
looked-up table the non-fatal lookup with the default message returns 0,
records no diagnostic and leaves the handler as it was.  Nothing is said of
the lookups in the other modes. -/
theorem useMap_silent_mode (h : GridHandler) (type : MapType) (value : String)
    (hv : (h.maps type).find value = none) :
    useMap_ h type value false CharPtr.emptyLiteral = (Outcome.returned 0, h)
    ∧ (useMap_ h type value false CharPtr.emptyLiteral).2.diagnostics = h.diagnostics := by
  rw [useMap_silent _ _ _ hv]
  exact ⟨rfl, rfl⟩

/-- Witness of C3 amended: the unknown name "unknown" in the built tag table. -/
theorem useMap_silent_mode_witness :
    (GridHandler.built.maps MapType.TAGMAP).find "unknown" = none
    ∧ useMap_ GridHandler.built MapType.TAGMAP "unknown" false CharPtr.emptyLiteral
        = (Outcome.returned 0, GridHandler.built)
    ∧ (useMap_ GridHandler.built MapType.TAGMAP "unknown" false
        CharPtr.emptyLiteral).2.diagnostics = GridHandler.built.diagnostics :=
  ⟨by decide, useMap_silent_mode GridHandler.built MapType.TAGMAP "unknown" (by decide)⟩

/-- C5: the code at the failing inputs.  The non-fatal lookup of the unknown
name "unknown" with the message "tag" ends at the local `message` read inside
its own initialiser and records no warning; the fatal lookup of the same name
ends at the dereference of the null locator and records no error. -/
theorem useMap_diagnostic_not_reached :
    (GridHandler.built.maps MapType.TAGMAP).find "unknown" = none
    ∧ (useMap_ GridHandler.built MapType.TAGMAP "unknown" false (CharPtr.other "tag")).1
        = Outcome.undefined UndefinedStep.selfInitialisedMessage
    ∧ (useMap_ GridHandler.built MapType.TAGMAP "unknown" false
        (CharPtr.other "tag")).2.diagnostics = []
    ∧ (useMap_ GridHandler.built MapType.TAGMAP "unknown" true (CharPtr.other "tag")).1
        = Outcome.undefined UndefinedStep.nullLocator
    ∧ (useMap_ GridHandler.built MapType.TAGMAP "unknown" true
        (CharPtr.other "tag")).2.diagnostics = [] := by
  decide

/-- C6: the code at the failing input.  The lookup of the unknown name
"unknown" with the defaults of the source (fatal, default message) ends at the
dereference of the null locator, before `error` is called: no error with the
text `Error in enumerated value "unknown"` is on record. -/
theorem useMap_error_not_reached :
    (GridHandler.built.maps MapType.TAGMAP).find "unknown" = none
    ∧ (useMap_ GridHandler.built MapType.TAGMAP "unknown" true CharPtr.emptyLiteral).1
        = Outcome.undefined UndefinedStep.nullLocator
    ∧ Diagnostic.error ("Error in enumerated value \"" ++ "unknown" ++ "\"")
        ∉ (useMap_ GridHandler.built MapType.TAGMAP "unknown" true
            CharPtr.emptyLiteral).2.diagnostics := by
  decide

/-- C7: a lookup leaves the tables as they were: for every name, flag and
message the maps, the tag-name vector and the registry after `useMap_` are
those before it, the looked-up key is found after the call exactly as before
(an unknown name is not inserted), and the same lookup repeated on the
resulting handler ends the same way. -/
theorem useMap_leaves_tables (h : GridHandler) (type : MapType) (value : String)
    (fatal : Bool) (message : CharPtr) :
    (useMap_ h type value fatal message).2.maps = h.maps
    ∧ (useMap_ h type value fatal message).2.tagsVector_ = h.tagsVector_
    ∧ (useMap_ h type value fatal message).2.mapping_instances = h.mapping_instances
    ∧ (((useMap_ h type value fatal message).2.maps type).find value
        = (h.maps type).find value)
    ∧ (((useMap_ h type value fatal message).2.maps type).size = (h.maps type).size)
    ∧ (useMap_ (useMap_ h type value fatal message).2 type value fatal message).1
        = (useMap_ h type value fatal message).1 := by
  cases hf : (h.maps type).find value with
  | some v =>
    rw [useMap_found _ _ _ _ _ v hf]
    refine ⟨rfl, rfl, rfl, hf, rfl, ?_⟩
    rw [useMap_found _ _ _ _ _ v hf]
  | none =>
    cases fatal with
    | true =>
      rw [useMap_fatal _ _ _ _ hf]
      refine ⟨rfl, rfl, rfl, hf, rfl, ?_⟩
      rw [useMap_fatal _ _ _ _ hf]
    | false =>
      by_cases hm : message = CharPtr.emptyLiteral
      · subst hm
        rw [useMap_silent _ _ _ hf]
        refine ⟨rfl, rfl, rfl, hf, rfl, ?_⟩
        rw [useMap_silent _ _ _ hf]
      · rw [useMap_other_message _ _ _ _ hf hm]
        refine ⟨rfl, rfl, rfl, hf, rfl, ?_⟩
        rw [useMap_other_message _ _ _ _ hf hm]

/-! ## The mapping registry -/

/-- C8: after `registerMappings_` the registry holds the new linear mapping
under the key "LinearMapping", whatever was stored there before; the entry
under every other key is what it was; the number of entries is unchanged when
the key was present and grows by one when it was not; the other members are
not touched. -/
theorem registerMappings_last_wins (h : GridHandler) (p : BaseMappingPtr) :
    (registerMappings_ h p).mapping_instances.find "LinearMapping" = some p
    ∧ (∀ k : String, k ≠ "LinearMapping" →
        (registerMappings_ h p).mapping_instances.find k = h.mapping_instances.find k)
    ∧ (h.mapping_instances.find "LinearMapping" ≠ none →
        (registerMappings_ h p).mapping_instances.size = h.mapping_instances.size)
    ∧ (h.mapping_instances.find "LinearMapping" = none →
        (registerMappings_ h p).mapping_instances.size = h.mapping_instances.size + 1)
    ∧ (registerMappings_ h p).maps = h.maps
    ∧ (registerMappings_ h p).tagsVector_ = h.tagsVector_ := by
  refine ⟨StdMap.find_assign_same _ _ _, ?_, ?_, ?_, rfl, rfl⟩
  · intro k hk
    exact StdMap.find_assign_other _ _ _ _ hk
  · intro hpres
    cases hf : h.mapping_instances.find "LinearMapping" with
    | none => exact absurd hf hpres
    | some w => exact StdMap.size_assign_present _ _ _ w hf
  · intro habs
    exact StdMap.size_assign_absent _ _ _ habs

/-- Witness of C8: registering a second time, on a registry that also holds
another key: the new pointer replaces the old one, the other key keeps its
entry and the registry keeps its two entries. -/
theorem registerMappings_last_wins_witness :
    (registerMappings_
        { GridHandler.fresh with
          mapping_instances :=
            (StdMap.empty.assign "LinearMapping" ⟨1⟩).assign "Other" ⟨2⟩ } ⟨3⟩
      ).mapping_instances.find "LinearMapping" = some ⟨3⟩
    ∧ (registerMappings_
        { GridHandler.fresh with
          mapping_instances :=
            (StdMap.empty.assign "LinearMapping" ⟨1⟩).assign "Other" ⟨2⟩ } ⟨3⟩
      ).mapping_instances.find "Other" = some ⟨2⟩
    ∧ (registerMappings_
        { GridHandler.fresh with
          mapping_instances :=
            (StdMap.empty.assign "LinearMapping" ⟨1⟩).assign "Other" ⟨2⟩ } ⟨3⟩
      ).mapping_instances.size = 2
    ∧ (registerMappings_ (GridHandler.fresh) ⟨3⟩).mapping_instances.size = 0 + 1 :=
  ⟨(registerMappings_last_wins _ ⟨3⟩).1,
   ((registerMappings_last_wins _ ⟨3⟩).2.1 "Other" (by decide)).trans (by decide),
   ((registerMappings_last_wins _ ⟨3⟩).2.2.1 (by decide)).trans (by decide),
   (registerMappings_last_wins (GridHandler.fresh) ⟨3⟩).2.2.2.1 (by decide)⟩

/-! ## Range of the identifiers -/

/-- C9: on the handler built by one `setConstants_` and one `fillMaps_` from the
empty state, the tag table has exactly `TAG_NUM` entries, and every lookup
either returns a value `v` with `0 ≤ v < TAG_NUM`, or returns nothing: it is
the lookup of a name that is not in the table, fatal or with a message other
than the default, and it ends at a step of undefined behaviour. -/
theorem useMap_result_indexes_in_tag (name : String) (fatal : Bool) (message : CharPtr) :
    ((GridHandler.built.maps MapType.TAGMAP).size : Int) = TAG_NUM
    ∧ ((∃ v : Int,
          (useMap_ GridHandler.built MapType.TAGMAP name fatal message).1
            = Outcome.returned v ∧ 0 ≤ v ∧ v < TAG_NUM)
        ∨ ((∃ u : UndefinedStep,
              (useMap_ GridHandler.built MapType.TAGMAP name fatal message).1
                = Outcome.undefined u)
            ∧ (fatal = true ∨ message ≠ CharPtr.emptyLiteral)
            ∧ (GridHandler.built.maps MapType.TAGMAP).find name = none)) := by
  constructor
  · simp only [StdMap.size, built_entries]
    rfl
  · cases hf : (GridHandler.built.maps MapType.TAGMAP).find name with
    | some v =>
      left
      have hmem := mem_of_findEntries name v _ hf
      rw [built_entries] at hmem
      rw [useMap_found _ _ _ _ _ v hf]
      refine ⟨v, rfl, ?_⟩
      simp only [List.mem_cons, Prod.mk.injEq, List.mem_singleton, List.not_mem_nil,
        or_false] at hmem
      rcases hmem with h | h | h | h | h | h | h | h | h <;>
        (rw [h.2]; decide)
    | none =>
      cases fatal with
      | true =>
        right
        rw [useMap_fatal _ _ _ _ hf]
        exact ⟨⟨_, rfl⟩, Or.inl rfl, rfl⟩
      | false =>
        by_cases hm : message = CharPtr.emptyLiteral
        · left
          rw [hm, useMap_silent _ _ _ hf]
          exact ⟨0, rfl, by decide⟩
        · right
          rw [useMap_other_message _ _ _ _ hf hm]
          exact ⟨⟨_, rfl⟩, Or.inr hm, rfl⟩

/-! ## `fillMap_` -/

theorem fillMapLoop_find_absent (array : List String) :
    ∀ (i : Nat) (dict : StdMap Int) (s : String), s ∉ array →
      (fillMapLoop i array dict).find s = dict.find s := by
  induction array with
  | nil => intro i dict s _; rfl
  | cons a rest ih =>
    intro i dict s hs
    rw [List.mem_cons, not_or] at hs
    show (fillMapLoop (i + 1) rest (dict.assign a (i : Int))).find s = dict.find s
    rw [ih (i + 1) _ s hs.2]
    exact StdMap.find_assign_other _ _ _ _ hs.1

theorem fillMapLoop_find_present (array : List String) :
    ∀ (i : Nat) (dict : StdMap Int) (s : String), s ∈ array →
      ∃ j : Nat, j < array.length ∧ array.get? j = some s
        ∧ (∀ j' : Nat, j < j' → array.get? j' ≠ some s)
        ∧ (fillMapLoop i array dict).find s = some ((i + j : Nat) : Int) := by
  induction array with
  | nil => intro i dict s hs; simp at hs
  | cons a rest ih =>
    intro i dict s hs
    by_cases hrest : s ∈ rest
    · obtain ⟨j, hj, hget, hmax, hfind⟩ := ih (i + 1) (dict.assign a (i : Int)) s hrest
      refine ⟨j + 1, by simpa using hj, by simpa using hget, ?_, ?_⟩
      · intro j' hlt
        obtain ⟨n, rfl⟩ : ∃ n, j' = n + 1 := ⟨j' - 1, by omega⟩
        simpa using hmax n (by omega)
      · show (fillMapLoop (i + 1) rest (dict.assign a (i : Int))).find s = _
        rw [hfind]
        congr 2
        omega
    · have hsa : s = a := by
        rcases List.mem_cons.1 hs with h | h
        · exact h
        · exact absurd h hrest
      subst hsa
      refine ⟨0, by simp, by simp, ?_, ?_⟩
      · intro j' hlt
        obtain ⟨n, rfl⟩ : ∃ n, j' = n + 1 := ⟨j' - 1, by omega⟩
        intro hget
        rw [List.get?_cons_succ] at hget
        exact hrest (List.get?_mem hget)
      · show (fillMapLoop (i + 1) rest (dict.assign s (i : Int))).find s = _
        rw [fillMapLoop_find_absent rest (i + 1) _ s hrest]
        simpa using StdMap.find_assign_same dict s (i : Int)

theorem fillMapLoop_size_fresh (array : List String) :
    ∀ (i : Nat) (dict : StdMap Int), array.Nodup → (∀ s ∈ array, dict.find s = none) →
      (fillMapLoop i array dict).size = dict.size + array.length := by
  induction array with
  | nil => intro i dict _ _; rfl
  | cons a rest ih =>
    intro i dict hnd hfresh
    rw [List.nodup_cons] at hnd
    show (fillMapLoop (i + 1) rest (dict.assign a (i : Int))).size = _
    rw [ih (i + 1) _ hnd.2, StdMap.size_assign_absent _ _ _ (hfresh a (List.mem_cons_self _ _))]
    · simp only [List.length_cons]; omega
    · intro s hs
      have hne : s ≠ a := fun h => hnd.1 (h ▸ hs)
      rw [StdMap.find_assign_other _ _ _ _ hne]
      exact hfresh s (List.mem_cons_of_mem _ hs)

/-- C10: after `fillMap_(dict, array)` every string that occurs in `array` is
mapped to the largest index at which it occurs, every other string is mapped
(or not mapped) as in `dict`; when the entries of `array` are pairwise distinct
and `dict` starts empty, the entry at index `j` is mapped to `j`, every key is
an entry and is mapped to its index, two keys with the same value are the same
key, and the map has as many entries as `array`. -/
theorem fillMap_builds_index (dict : StdMap Int) (array : List String) :
    (∀ s : String, s ∈ array →
        ∃ j : Nat, j < array.length ∧ array.get? j = some s
          ∧ (∀ j' : Nat, j < j' → array.get? j' ≠ some s)
          ∧ (fillMap_ dict array).find s = some (j : Int))
    ∧ (∀ s : String, s ∉ array → (fillMap_ dict array).find s = dict.find s)
    ∧ (array.Nodup →
        (∀ (j : Nat) (hj : j < array.length),
            (fillMap_ StdMap.empty array).find (array.get ⟨j, hj⟩) = some (j : Int))
        ∧ (∀ (s : String) (v : Int), (fillMap_ StdMap.empty array).find s = some v →
            ∃ j : Nat, j < array.length ∧ array.get? j = some s ∧ v = (j : Int))
        ∧ (∀ (s t : String) (v : Int), (fillMap_ StdMap.empty array).find s = some v →
            (fillMap_ StdMap.empty array).find t = some v → s = t)
        ∧ (fillMap_ StdMap.empty array).size = array.length) := by
  have hpresent : ∀ (d : StdMap Int) (s : String), s ∈ array →
      ∃ j : Nat, j < array.length ∧ array.get? j = some s
        ∧ (∀ j' : Nat, j < j' → array.get? j' ≠ some s)
        ∧ (fillMap_ d array).find s = some (j : Int) := by
    intro d s hs
    obtain ⟨j, hj, hget, hmax, hfind⟩ := fillMapLoop_find_present array 0 d s hs
    exact ⟨j, hj, hget, hmax, by simpa [fillMap_] using hfind⟩
  have hkeys : ∀ (s : String) (v : Int), (fillMap_ StdMap.empty array).find s = some v →
      ∃ j : Nat, j < array.length ∧ array.get? j = some s ∧ v = (j : Int) := by
    intro s v hfind
    by_cases hs : s ∈ array
    · obtain ⟨j, hj, hget, _, hf⟩ := hpresent StdMap.empty s hs
      rw [hf] at hfind
      exact ⟨j, hj, hget, (Option.some.inj hfind).symm⟩
    · have habs : (fillMap_ StdMap.empty array).find s = none :=
        fillMapLoop_find_absent array 0 StdMap.empty s hs
      rw [habs] at hfind
      exact absurd hfind (by simp)
  refine ⟨hpresent dict, fun s hs => fillMapLoop_find_absent array 0 dict s hs, ?_⟩
  intro hnd
  refine ⟨?_, hkeys, ?_, ?_⟩
  · intro j hj
    obtain ⟨j0, hj0, hget, _, hf⟩ :=
      hpresent StdMap.empty (array.get ⟨j, hj⟩) (List.get_mem array j hj)
    have hget0 : array.get ⟨j0, hj0⟩ = array.get ⟨j, hj⟩ := by
      rw [List.get?_eq_get hj0] at hget
      exact Option.some.inj hget
    have hjj : j0 = j := by
      have := (List.Nodup.get_inj_iff hnd).1 hget0
      exact congrArg Fin.val this
    rw [hf, hjj]
  · intro s t v hs ht
    obtain ⟨j, hj, hgs, hv⟩ := hkeys s v hs
    obtain ⟨j2, hj2, hgt, hv2⟩ := hkeys t v ht
    have hjj : j = j2 := by
      have : (j : Int) = (j2 : Int) := hv.symm.trans hv2
      exact_mod_cast this
    subst hjj
    rw [hgs] at hgt
    exact Option.some.inj hgt
  · have := fillMapLoop_size_fresh array 0 StdMap.empty hnd (fun s _ => rfl)
    simpa [fillMap_, StdMap.size, StdMap.empty] using this

/-- Witness of C10 on the array "a", "b", "a" and a dictionary that holds "z":
"a" is mapped to 2, its last index, "z" keeps its value, and on the
duplicate-free array "a", "b" the map has two entries. -/
theorem fillMap_builds_index_witness :
    (∃ j : Nat, j < ["a", "b", "a"].length ∧ ["a", "b", "a"].get? j = some "a"
        ∧ (∀ j' : Nat, j < j' → ["a", "b", "a"].get? j' ≠ some "a")
        ∧ (fillMap_ (StdMap.empty.assign "z" 7) ["a", "b", "a"]).find "a" = some (j : Int))
    ∧ (fillMap_ (StdMap.empty.assign "z" 7) ["a", "b", "a"]).find "z" = some 7
    ∧ (fillMap_ StdMap.empty ["a", "b"]).size = 2 :=
  ⟨(fillMap_builds_index (StdMap.empty.assign "z" 7) ["a", "b", "a"]).1 "a" (by decide),
   ((fillMap_builds_index (StdMap.empty.assign "z" 7) ["a", "b", "a"]).2.1 "z"
      (by decide)).trans (by decide),
   ((fillMap_builds_index StdMap.empty ["a", "b"]).2.2 (by decide)).2.2.2⟩

/-! ## Round trip of the writer and the reader -/

@[simp] theorem tagOf_celllist : tagOf "celllist" = some Tags.CELLLIST := by decide
@[simp] theorem tagOf_cell : tagOf "cell" = some Tags.CELL := by decide
@[simp] theorem tagOf_first : tagOf "first" = some Tags.FIRSTPOSITION := by decide
@[simp] theorem tagOf_second : tagOf "second" = some Tags.SECONDPOSITION := by decide
@[simp] theorem tagOf_fposition : tagOf "fposition" = some Tags.FPOSITION := by decide
@[simp] theorem tagOf_sposition : tagOf "sposition" = some Tags.SPOSITION := by decide
@[simp] theorem tagOf_mappinglist : tagOf "mappinglist" = some Tags.MAPPINGLIST := by decide
@[simp] theorem tagOf_mapping : tagOf "mapping" = some Tags.MAPPING := by decide
@[simp] theorem tagOf_param : tagOf "param" = some Tags.PARAM := by decide

/-- Feeding two documents one after the other. -/
theorem feed_append {Scalar Param : Type} (rd : Reader Scalar Param) (a b : List Event) :
    ∀ s : ParseState Scalar Param,
      feed rd s (a ++ b) =
        match feed rd s a with
        | Except.ok s1 => feed rd s1 b
        | Except.error err => Except.error err := by
  induction a with
  | nil => intro s; rfl
  | cons e rest ih =>
    intro s
    simp only [feed, List.cons_append]
    cases hstep : step rd s e with
    | error err => rfl
    | ok s2 => exact ih s2

theorem feed_writeCorner_first {Scalar Param : Type} (rd : Reader Scalar Param)
    (rest : List Tags) (g : Option (Grid Scalar Param)) (c : GridCell Scalar Param)
    (m : Option (Mapping Param)) (d : Nat) (ft st pa : String) (w : List ParseError)
    (p : Position Scalar) (hp : Position.Transportable rd p) :
    feed rd ⟨Tags.CELL :: rest, g, some c, m, d, ft, st, pa, 0, w⟩
        (writeCorner rd.codec "first" p) =
      Except.ok ⟨Tags.CELL :: rest, g, some { c with first := p }, m, d,
        rd.codec.showScalar p.x, rd.codec.showScalar p.y, pa, 0, w⟩ := by
  obtain ⟨hx, hy⟩ := hp
  simp [writeCorner, feed, step, startElement, endElement, characters, legalChild, parseCorner,
    hx, hy]

theorem feed_writeCorner_second {Scalar Param : Type} (rd : Reader Scalar Param)
    (rest : List Tags) (g : Option (Grid Scalar Param)) (c : GridCell Scalar Param)
    (m : Option (Mapping Param)) (d : Nat) (ft st pa : String) (w : List ParseError)
    (p : Position Scalar) (hp : Position.Transportable rd p) :
    feed rd ⟨Tags.CELL :: rest, g, some c, m, d, ft, st, pa, 0, w⟩
        (writeCorner rd.codec "second" p) =
      Except.ok ⟨Tags.CELL :: rest, g, some { c with second := p }, m, d,
        rd.codec.showScalar p.x, rd.codec.showScalar p.y, pa, 0, w⟩ := by
  obtain ⟨hx, hy⟩ := hp
  simp [writeCorner, feed, step, startElement, endElement, characters, legalChild, parseCorner,
    hx, hy]

theorem readIndex_toString_of_lt_DIMENSION (d : Nat) (hd : d < DIMENSION) :
    readIndex (toString d) = some d := by
  have h2 : d = 0 ∨ d = 1 := by
    simp only [DIMENSION] at hd
    omega
  rcases h2 with h | h <;> subst h <;> decide

theorem feed_writeMapping {Scalar Param : Type} (rd : Reader Scalar Param)
    (rest : List Tags) (g : Option (Grid Scalar Param)) (c : GridCell Scalar Param)
    (m0 : Option (Mapping Param)) (d0 : Nat) (ft st pa : String) (w : List ParseError)
    (d : Nat) (m : Mapping Param) (hd : d < DIMENSION) (hm : Mapping.Transportable rd m) :
    feed rd ⟨Tags.MAPPINGLIST :: rest, g, some c, m0, d0, ft, st, pa, 0, w⟩
        (writeMapping rd.codec d m) =
      Except.ok ⟨Tags.MAPPINGLIST :: rest, g,
        some { c with mappings := c.mappings.set d (some m) }, none, d, ft, st,
        rd.codec.encode m.param, 0, w⟩ := by
  obtain ⟨⟨factory, hfind, hname⟩, hdec⟩ := hm
  have hnum := readIndex_toString_of_lt_DIMENSION d hd
  simp [writeMapping, feed, step, startElement, endElement, characters, legalChild,
    getValue, findEntries, MappingTypeRegistry.create, hfind, hnum, hd, hdec, hname]

theorem feed_nil {Scalar Param : Type} (rd : Reader Scalar Param)
    (s : ParseState Scalar Param) : feed rd s [] = Except.ok s := rfl

theorem feed_cons {Scalar Param : Type} (rd : Reader Scalar Param)
    (s : ParseState Scalar Param) (e : Event) (rest : List Event) :
    feed rd s (e :: rest) =
      match step rd s e with
      | Except.ok s1 => feed rd s1 rest
      | Except.error err => Except.error err := rfl

theorem step_open_cell {Scalar Param : Type} (rd : Reader Scalar Param)
    (g : Option (Grid Scalar Param)) (c0 : Option (GridCell Scalar Param))
    (m : Option (Mapping Param)) (d : Nat) (ft st pa : String) (w : List ParseError) :
    step rd ⟨[Tags.CELLLIST], g, c0, m, d, ft, st, pa, 0, w⟩ (Event.startElement "cell" []) =
      Except.ok ⟨[Tags.CELL, Tags.CELLLIST], g,
        some ⟨⟨rd.codec.origin, rd.codec.origin⟩, ⟨rd.codec.origin, rd.codec.origin⟩,
          [none, none]⟩, m, 0, "", "", "", 0, w⟩ := by
  simp [step, startElement, legalChild, DIMENSION, List.replicate]

theorem step_open_mappinglist {Scalar Param : Type} (rd : Reader Scalar Param)
    (rest : List Tags) (g : Option (Grid Scalar Param)) (c0 : Option (GridCell Scalar Param))
    (m : Option (Mapping Param)) (d : Nat) (ft st pa : String) (w : List ParseError) :
    step rd ⟨Tags.CELL :: rest, g, c0, m, d, ft, st, pa, 0, w⟩
        (Event.startElement "mappinglist" []) =
      Except.ok ⟨Tags.MAPPINGLIST :: Tags.CELL :: rest, g, c0, m, d, ft, st, pa, 0, w⟩ := by
  simp [step, startElement, legalChild]

theorem step_close_mappinglist {Scalar Param : Type} (rd : Reader Scalar Param)
    (rest : List Tags) (g : Option (Grid Scalar Param)) (c0 : Option (GridCell Scalar Param))
    (m : Option (Mapping Param)) (d : Nat) (ft st pa : String) (w : List ParseError) :
    step rd ⟨Tags.MAPPINGLIST :: rest, g, c0, m, d, ft, st, pa, 0, w⟩
        (Event.endElement "mappinglist") =
      Except.ok ⟨rest, g, c0, m, d, ft, st, pa, 0, w⟩ := by
  simp [step, endElement]

theorem step_close_cell {Scalar Param : Type} (rd : Reader Scalar Param)
    (rest : List Tags) (g : Grid Scalar Param) (c : GridCell Scalar Param)
    (m : Option (Mapping Param)) (d : Nat) (ft st pa : String) (w : List ParseError) :
    step rd ⟨Tags.CELL :: rest, some g, some c, m, d, ft, st, pa, 0, w⟩
        (Event.endElement "cell") =
      Except.ok ⟨rest, some (g ++ [c]), none, m, d, ft, st, pa, 0, w⟩ := by
  simp [step, endElement]

theorem feed_writeCell {Scalar Param : Type} (rd : Reader Scalar Param)
    (s : ParseState Scalar Param) (g : Grid Scalar Param) (c : GridCell Scalar Param)
    (hskip : s.skipping = 0) (hscope : s.in_tag_ = [Tags.CELLLIST]) (hgrid : s.grid_ = some g)
    (hc : GridCell.Transportable rd c) :
    ∃ s1 : ParseState Scalar Param,
      feed rd s (writeCell rd.codec c) = Except.ok s1
      ∧ s1.skipping = 0 ∧ s1.in_tag_ = [Tags.CELLLIST] ∧ s1.grid_ = some (g ++ [c])
      ∧ s1.warnings = s.warnings := by
  obtain ⟨scope, g0, cell, m0, d0, ft, st, pa, sk, w⟩ := s
  simp only at hskip hscope hgrid
  subst hskip hscope hgrid
  obtain ⟨p1, p2, slots⟩ := c
  obtain ⟨hlen, hp1, hp2, hms⟩ := hc
  simp only at hlen hp1 hp2 hms
  have h01 : (0 : Nat) < DIMENSION := by decide
  have h11 : (1 : Nat) < DIMENSION := by decide
  match slots, hlen, hms with
  | [a, b], _, hms =>
    cases a with
    | none =>
      cases b with
      | none =>
        simp only [writeCell, writeSlots, List.append_assoc, List.cons_append, List.nil_append,
          List.append_nil, feed_cons, feed_nil, feed_append, step_open_cell,
          step_open_mappinglist, step_close_mappinglist, step_close_cell,
          feed_writeCorner_first rd _ _ _ _ _ _ _ _ _ p1 hp1,
          feed_writeCorner_second rd _ _ _ _ _ _ _ _ _ p2 hp2]
        exact ⟨_, rfl, rfl, rfl, rfl, rfl⟩
      | some mb =>
        have hb : Mapping.Transportable rd mb := hms mb (by simp)
        simp only [writeCell, writeSlots, List.append_assoc, List.cons_append, List.nil_append,
          List.append_nil, feed_cons, feed_nil, feed_append, step_open_cell,
          step_open_mappinglist, step_close_mappinglist, step_close_cell,
          feed_writeCorner_first rd _ _ _ _ _ _ _ _ _ p1 hp1,
          feed_writeCorner_second rd _ _ _ _ _ _ _ _ _ p2 hp2,
          feed_writeMapping rd _ _ _ _ _ _ _ _ _ 1 mb h11 hb]
        exact ⟨_, rfl, rfl, rfl, rfl, rfl⟩
    | some ma =>
      have ha : Mapping.Transportable rd ma := hms ma (by simp)
      cases b with
      | none =>
        simp only [writeCell, writeSlots, List.append_assoc, List.cons_append, List.nil_append,
          List.append_nil, feed_cons, feed_nil, feed_append, step_open_cell,
          step_open_mappinglist, step_close_mappinglist, step_close_cell,
          feed_writeCorner_first rd _ _ _ _ _ _ _ _ _ p1 hp1,
          feed_writeCorner_second rd _ _ _ _ _ _ _ _ _ p2 hp2,
          feed_writeMapping rd _ _ _ _ _ _ _ _ _ 0 ma h01 ha]
        exact ⟨_, rfl, rfl, rfl, rfl, rfl⟩
      | some mb =>
        have hb : Mapping.Transportable rd mb := hms mb (by simp)
        simp only [writeCell, writeSlots, List.append_assoc, List.cons_append, List.nil_append,
          List.append_nil, feed_cons, feed_nil, feed_append, step_open_cell,
          step_open_mappinglist, step_close_mappinglist, step_close_cell,
          feed_writeCorner_first rd _ _ _ _ _ _ _ _ _ p1 hp1,
          feed_writeCorner_second rd _ _ _ _ _ _ _ _ _ p2 hp2,
          feed_writeMapping rd _ _ _ _ _ _ _ _ _ 0 ma h01 ha,
          feed_writeMapping rd _ _ _ _ _ _ _ _ _ 1 mb h11 hb]
        exact ⟨_, rfl, rfl, rfl, rfl, rfl⟩


theorem feed_writeCells {Scalar Param : Type} (rd : Reader Scalar Param)
    (cells : Grid Scalar Param) :
    ∀ (s : ParseState Scalar Param) (g : Grid Scalar Param),
      s.skipping = 0 → s.in_tag_ = [Tags.CELLLIST] → s.grid_ = some g →
      (∀ c ∈ cells, GridCell.Transportable rd c) →
      ∃ s1 : ParseState Scalar Param,
        feed rd s (writeCells rd.codec cells) = Except.ok s1
        ∧ s1.skipping = 0 ∧ s1.in_tag_ = [Tags.CELLLIST] ∧ s1.grid_ = some (g ++ cells)
        ∧ s1.warnings = s.warnings := by
  induction cells with
  | nil =>
    intro s g hskip hscope hgrid _
    exact ⟨s, rfl, hskip, hscope, by simpa using hgrid, rfl⟩
  | cons c rest ih =>
    intro s g hskip hscope hgrid hall
    obtain ⟨s1, hfeed, hskip1, hscope1, hgrid1, hw1⟩ :=
      feed_writeCell rd s g c hskip hscope hgrid (hall c (List.mem_cons_self _ _))
    obtain ⟨s2, hfeed2, hskip2, hscope2, hgrid2, hw2⟩ :=
      ih s1 (g ++ [c]) hskip1 hscope1 hgrid1 (fun x hx => hall x (List.mem_cons_of_mem _ hx))
    refine ⟨s2, ?_, hskip2, hscope2, ?_, hw2.trans hw1⟩
    · simp only [writeCells, feed_append, hfeed, hfeed2]
    · simpa using hgrid2

/-- C4, as stated, fails in the model.  A grid with a mapping of a type the
reader has not registered is written and then refused with
`UnknownMappingType`; a grid whose cell has a third slot is written and then
refused with `InvalidDimension`; with a text form of scalars that keeps three
digits the corner coordinate 1234 is read back as 123. -/
theorem written_grid_not_read_back :
    read sampleReader (writeTo sampleReader.codec unregisteredGrid)
        = Except.error (ParseError.UnknownMappingType "Other")
    ∧ read sampleReader (writeTo sampleReader.codec threeSlotGrid)
        = Except.error (ParseError.InvalidDimension "2")
    ∧ read truncatingReader (writeTo truncatingReader.codec fourDigitGrid)
        = Except.ok [ ⟨⟨123, 2⟩, ⟨3, 4⟩, [none, none]⟩ ]
    ∧ read truncatingReader (writeTo truncatingReader.codec fourDigitGrid)
        ≠ Except.ok fourDigitGrid := by
  have h3 : read truncatingReader (writeTo truncatingReader.codec fourDigitGrid)
      = Except.ok [ ⟨⟨123, 2⟩, ⟨3, 4⟩, [none, none]⟩ ] := by rfl
  refine ⟨by rfl, by rfl, h3, ?_⟩
  intro h
  rw [h3] at h
  exact absurd (Except.ok.inj h) (by decide)

/-- C4, amended: the round trip of the modelled writer and reader, for the
grids the reader can take back.  For every grid whose cells have one mapping
slot per dimension, whose mapping types are registered with the reader and
whose scalars and configurations the collaborators read back from the text
they wrote for them, feeding the events of `writeTo` to the reader from its
initial state ends without error and yields the grid itself: the same cells
in the same order, with the same corners and, slot by slot, the same mapping
type name and configuration. -/
theorem read_writeTo {Scalar Param : Type} (rd : Reader Scalar Param)
    (g : Grid Scalar Param) (hg : ∀ c ∈ g, GridCell.Transportable rd c) :
    read rd (writeTo rd.codec g) = Except.ok g := by
  have hopen : step rd (ParseState.initial : ParseState Scalar Param)
      (Event.startElement "celllist" []) =
        Except.ok ⟨[Tags.CELLLIST], some [], none, none, 0, "", "", "", 0, []⟩ := by
    simp [step, startElement, legalChild, ParseState.initial]
  obtain ⟨s1, hfeed, hskip, hscope, hgrid, _⟩ :=
    feed_writeCells rd g ⟨[Tags.CELLLIST], some [], none, none, 0, "", "", "", 0, []⟩ []
      rfl rfl rfl hg
  obtain ⟨scope, g1, c1, m1, d1, ft, st, pa, sk, w⟩ := s1
  simp only [List.nil_append] at hskip hscope hgrid
  subst hskip hscope hgrid
  have hclose : step rd ⟨[Tags.CELLLIST], some g, c1, m1, d1, ft, st, pa, 0, w⟩
      (Event.endElement "celllist") =
        Except.ok ⟨[], some g, c1, m1, d1, ft, st, pa, 0, w⟩ := by
    simp [step, endElement]
  simp only [read, writeTo, List.append_assoc, List.cons_append, List.nil_append, feed_cons,
    feed_nil, feed_append, hopen, hfeed, hclose, Option.getD_some]

/-- Witness of C4 amended: the sample grid, read back by the sample reader from what
the writer made of it. -/
theorem read_writeTo_witness :
    read sampleReader (writeTo sampleReader.codec sampleGrid) = Except.ok sampleGrid :=
  read_writeTo sampleReader sampleGrid (by
    have hreg : ∀ p : String,
        Mapping.Transportable sampleReader (⟨"LinearMapping", p⟩ : Mapping String) :=
      fun p => ⟨⟨fun _ => ⟨"LinearMapping", ""⟩, rfl, rfl⟩, rfl⟩
    intro c hc
    simp only [sampleGrid, List.mem_cons, List.mem_singleton, List.not_mem_nil, or_false] at hc
    rcases hc with rfl | rfl
    · refine ⟨rfl, ⟨by decide, by decide⟩, ⟨by decide, by decide⟩, ?_⟩
      intro m hm
      simp only [List.mem_cons, Option.some.injEq, List.mem_singleton, List.not_mem_nil,
        or_false, reduceCtorEq] at hm
      subst hm
      exact hreg _
    · refine ⟨rfl, ⟨by decide, by decide⟩, ⟨by decide, by decide⟩, ?_⟩
      intro m hm
      simp only [List.mem_cons, Option.some.injEq, List.mem_singleton, List.not_mem_nil,
        or_false] at hm
      rcases hm with rfl | rfl <;> exact hreg _)

end Internal
end OpenMS
